import Mathlib

/-!
Shallow embedding of the stream-muxer contract of this repository.

The sources ship the muxer interface declaration (the MuxedStream and
StreamMuxerInterface types in src/unnamed/part_000) together with the
compliance test suite (close-test.ts). The muxer implementation itself is
not among the sources, so the Session and Logical Stream operations below
are modelled from the specification (sections 3, 4, 5 and 7 of spec.md)
and checked against the behaviours the compliance tests demand. The
declared TypeScript record shapes, by contrast, are embedded directly
from src/unnamed/part_000.
-/

namespace StreamMuxer

/-- A byte chunk, the unit written to a sink and yielded by a source:
bytes as natural numbers (Uint8Array in the source). -/
abbrev Chunk := List Nat

/-- Modelled from the spec: frame kinds of section 3, Frame, which lists
open, data, close-read, close-write, close-both and reset. -/
inductive FrameKind where
  | openStream
  | data
  | closeWrite
  | closeRead
  | closeBoth
  | reset
  deriving DecidableEq

/-- Modelled from the spec: a wire-level Frame of section 3, carrying a
stream identifier, the frame kind, and the payload bytes (empty for
frames that are not data frames). -/
structure Frame where
  streamId : Nat
  kind : FrameKind
  payload : Chunk
  deriving DecidableEq

/-- Modelled from the spec: the error kinds of section 7. -/
inductive MuxError where
  | streamClosedForWriting
  | streamReset
  | sessionClosed
  deriving DecidableEq

/-- Modelled from the spec: the human-readable message identifying each
error kind; close-test.ts line 161 requires the write-after-close error
message to match the text of streamClosedForWriting. -/
def MuxError.message : MuxError → String
  | .streamClosedForWriting => "stream closed for writing"
  | .streamReset => "stream reset"
  | .sessionClosed => "session closed"

/-- Modelled from the spec: the Logical Stream record of section 3: an
identifier, direction flags readClosed and writeClosed, a flag recording
that the peer announced end of its write half (so the inbound queue will
receive nothing further and the source terminates after draining it), and
the inbound queue of received chunks awaiting consumption. -/
structure LogicalStream where
  id : Nat
  readClosed : Bool := false
  writeClosed : Bool := false
  remoteEnded : Bool := false
  inbound : List Chunk := []
  deriving DecidableEq

/-- Modelled from the spec: the Session of section 3: the registry of
open streams in insertion order, the monotonically advancing identifier
generator, the closed flag, and the log of onStreamEnd invocations in
order (one entry, the stream identifier, per invocation). -/
structure Session where
  streams : List LogicalStream := []
  nextId : Nat := 0
  closed : Bool := false
  endLog : List Nat := []
  deriving DecidableEq

/-- Modelled from the spec: registry lookup by stream identifier. -/
def findStream (s : Session) (sid : Nat) : Option LogicalStream :=
  s.streams.find? (fun st => st.id == sid)

/-- Modelled from the spec: update the registry entry with the given
identifier in place, leaving every other stream untouched. -/
def updateStream (s : Session) (sid : Nat) (f : LogicalStream → LogicalStream) : Session :=
  { s with streams := s.streams.map (fun st => if st.id == sid then f st else st) }

/-- Modelled from the spec: remove the registry entry with the given
identifier. -/
def removeStream (s : Session) (sid : Nat) : Session :=
  { s with streams := s.streams.filter (fun st => st.id != sid) }

/-- Modelled from the spec, section 4.1: if both direction flags of the
stream are set, the stream has transitioned to fully closed: fire
onStreamEnd (append to the log) and remove the registry entry. A stream
no longer registered fires nothing. -/
def finalizeIfClosed (s : Session) (sid : Nat) : Session :=
  match findStream s sid with
  | none => s
  | some st =>
    if st.readClosed && st.writeClosed then
      { removeStream s sid with endLog := s.endLog ++ [sid] }
    else s

/-- Modelled from the spec, section 4.1 newStream: fails with
sessionClosed if the Session is already closed, otherwise allocates a
fresh identifier, registers a Logical Stream in the open state and
returns its identifier (the handle). -/
def Session.newStream (s : Session) : Except MuxError (Session × Nat) :=
  if s.closed then
    .error .sessionClosed
  else
    .ok ({ s with streams := s.streams ++ [{ id := s.nextId }],
                  nextId := s.nextId + 1 }, s.nextId)

/-- The data frames that carry a list of chunks for one stream, in
submission order. -/
def dataFrames (sid : Nat) (cs : List Chunk) : List Frame :=
  cs.map (fun c => { streamId := sid, kind := .data, payload := c })

/-- The close-write frame for a stream. -/
def closeWriteFrame (sid : Nat) : Frame :=
  { streamId := sid, kind := .closeWrite, payload := [] }

/-- The close-read frame for a stream. -/
def closeReadFrame (sid : Nat) : Frame :=
  { streamId := sid, kind := .closeRead, payload := [] }

/-- The reset frame for a stream. -/
def resetFrame (sid : Nat) : Frame :=
  { streamId := sid, kind := .reset, payload := [] }

/-- The open frame for a stream. -/
def openFrame (sid : Nat) : Frame :=
  { streamId := sid, kind := .openStream, payload := [] }

/-- Modelled from the spec, section 4.2 sink: writing a list of chunks on
a stream fails with streamClosedForWriting if the write half is closed,
fails with streamReset if the stream is no longer registered (reset or
fully closed), and otherwise emits one data frame per chunk, in order,
onto the transport. -/
def Session.sink (s : Session) (sid : Nat) (cs : List Chunk) :
    Except MuxError (Session × List Frame) :=
  match findStream s sid with
  | none => .error .streamReset
  | some st =>
    if st.writeClosed then .error .streamClosedForWriting
    else .ok (s, dataFrames sid cs)

/-- Modelled from the spec, section 4.2 closeWrite: closes the local
write half, emits a close-write frame, and finalizes the stream if the
read half was already closed. -/
def Session.closeWrite (s : Session) (sid : Nat) : Session × List Frame :=
  (finalizeIfClosed (updateStream s sid (fun st => { st with writeClosed := true })) sid,
   [closeWriteFrame sid])

/-- Modelled from the spec, section 4.2 closeRead: closes the local read
half, discards any buffered-but-unconsumed inbound data, emits a
close-read frame, and finalizes the stream if the write half was already
closed. -/
def Session.closeRead (s : Session) (sid : Nat) : Session × List Frame :=
  (finalizeIfClosed (updateStream s sid (fun st => { st with readClosed := true, inbound := [] })) sid,
   [closeReadFrame sid])

/-- Modelled from the spec, section 4.2 close: closes both directions
and finalizes the stream (fully closed). -/
def Session.closeStream (s : Session) (sid : Nat) : Session × List Frame :=
  (finalizeIfClosed
     (updateStream s sid (fun st => { st with readClosed := true, writeClosed := true })) sid,
   [{ streamId := sid, kind := .closeBoth, payload := [] }])

/-- Modelled from the spec, section 4.2 reset and abort: unconditional
immediate transition to reset: the registry entry is dropped, buffered
data with it, onStreamEnd fires, and a reset frame goes to the peer;
idempotent (a no-op) if the stream is already terminal. -/
def Session.resetStream (s : Session) (sid : Nat) : Session × List Frame :=
  match findStream s sid with
  | none => (s, [])
  | some _ => ({ removeStream s sid with endLog := s.endLog ++ [sid] }, [resetFrame sid])

/-- Result of one pull from a stream source: a chunk, a clean end of
stream (done = true in the async-iterator protocol), or pending
(the read would suspend awaiting more inbound data). -/
inductive ReadResult where
  | chunk (c : Chunk)
  | done
  | pending
  deriving DecidableEq

/-- Modelled from the spec, section 4.2 source: one pull from the
source. A stream that is gone from the registry or whose local read half
is closed reports done; otherwise the head of the inbound queue is
yielded; an empty queue reports done once the peer ended its write half
(buffered data is drained first, as section 3 requires) and pending
otherwise. -/
def Session.sourceNext (s : Session) (sid : Nat) : ReadResult × Session :=
  match findStream s sid with
  | none => (.done, s)
  | some st =>
    if st.readClosed then (.done, s)
    else
      match st.inbound with
      | [] => if st.remoteEnded then (.done, s) else (.pending, s)
      | c :: _ => (.chunk c, updateStream s sid (fun st2 => { st2 with inbound := st2.inbound.tail }))

/-- Repeatedly pull from a stream source, up to the given fuel: returns
the chunks yielded in order together with the first non-chunk result
observed (done or pending; pending also when the fuel runs out first). -/
def readAll (s : Session) (sid : Nat) : Nat → List Chunk × ReadResult
  | 0 => ([], .pending)
  | n + 1 =>
    match s.sourceNext sid with
    | (.chunk c, s2) =>
      let r := readAll s2 sid n
      (c :: r.1, r.2)
    | (.done, _) => ([], .done)
    | (.pending, _) => ([], .pending)

/-- Modelled from the spec, section 4.1 read-loop dispatch: open
registers a stream; data appends the payload to the inbound queue of
the target stream and is silently dropped for an unknown stream;
close-write from the peer marks that no further inbound data will
arrive; close-read from the peer closes the local write half; close-both
does both; reset drops the stream, fires onStreamEnd, and is a no-op
for an unknown stream. -/
def Session.handleFrame (s : Session) (f : Frame) : Session :=
  match f.kind with
  | .openStream => { s with streams := s.streams ++ [{ id := f.streamId }] }
  | .data =>
    match findStream s f.streamId with
    | none => s
    | some _ => updateStream s f.streamId (fun st => { st with inbound := st.inbound ++ [f.payload] })
  | .closeWrite => updateStream s f.streamId (fun st => { st with remoteEnded := true })
  | .closeRead =>
    finalizeIfClosed (updateStream s f.streamId (fun st => { st with writeClosed := true })) f.streamId
  | .closeBoth =>
    finalizeIfClosed
      (updateStream s f.streamId (fun st => { st with remoteEnded := true, writeClosed := true }))
      f.streamId
  | .reset =>
    match findStream s f.streamId with
    | none => s
    | some _ => { removeStream s f.streamId with endLog := s.endLog ++ [f.streamId] }

/-- Apply a list of frames arriving on the transport, in order. -/
def deliverFrames (s : Session) (fs : List Frame) : Session :=
  fs.foldl Session.handleFrame s

/-- Modelled from the spec, sections 4.1 and 5: on transport EOF, error
or Session abort, every stream still in the registry is force-reset,
onStreamEnd fires once for each, and the Session terminates. -/
def Session.closeTransport (s : Session) : Session :=
  { streams := [],
    nextId := s.nextId,
    closed := true,
    endLog := s.endLog ++ s.streams.map (fun st => st.id) }

/-- The empty, freshly established Session. -/
def freshSession : Session := {}

/-- The Session state updated by a successful newStream (unchanged when
newStream fails). -/
def newStreamD (s : Session) : Session :=
  match s.newStream with
  | .ok (s2, _) => s2
  | .error _ => s

/-- A Session whose registry holds exactly one fresh stream with the
given identifier, as created by the read-loop on an open frame. -/
def sessionWith (sid : Nat) : Session :=
  freshSession.handleFrame (openFrame sid)

/-- The Session obtained by opening a number of streams via newStream on
a fresh Session. -/
def openN : Nat → Session
  | 0 => freshSession
  | n + 1 => newStreamD (openN n)

/-- A TypeScript type shape, as far as the declarations in
src/unnamed/part_000 need: primitives, promises, async iterables,
zero-argument and one-argument function types, and records whose fields
carry a name, a type, and an optionality flag. -/
inductive TsTy where
  | uint8Array
  | number
  | string
  | unit
  | promise (t : TsTy)
  | asyncIterable (t : TsTy)
  | func0 (ret : TsTy)
  | func1 (arg ret : TsTy)
  | record (fields : List (String × TsTy × Bool))

/-- The MuxedTimeline record declared in src/unnamed/part_000 lines
24 to 27: a required numeric field named open and an optional numeric
field named close. -/
def MuxedTimelineTy : TsTy :=
  .record [("open", .number, false), ("close", .number, true)]

/-- The Sink function type declared in src/unnamed/part_000 line 37. -/
def SinkTy : TsTy :=
  .func1 .uint8Array (.promise .uint8Array)

/-- The MuxedStream record declared in src/unnamed/part_000 lines 28 to
36, with its fields in declaration order. -/
def MuxedStreamTy : TsTy :=
  .record
    [("close", .func0 .unit, false),
     ("abort", .func0 .unit, false),
     ("reset", .func0 .unit, false),
     ("sink", SinkTy, false),
     ("source", .func0 (.asyncIterable .uint8Array), false),
     ("timeline", MuxedTimelineTy, false),
     ("id", .string, false)]

/-- The field names of a record type, in declaration order. -/
def fieldNames : TsTy → List String
  | .record fs => fs.map (fun f => f.1)
  | _ => []

/-- The names of the optional fields of a record type. -/
def optionalFields : TsTy → List String
  | .record fs => (fs.filter (fun f => f.2.2)).map (fun f => f.1)
  | _ => []

/-- The declared type of a named field of a record type. -/
def fieldTy (t : TsTy) (name : String) : Option TsTy :=
  match t with
  | .record fs => (fs.find? (fun f => f.1 == name)).map (fun f => f.2.1)
  | _ => none

/-- The operations the claim about the Logical Stream handle surface
says are exposed, written from the words of the claim (spec section 6):
close, closeRead, closeWrite, reset, abort, source, sink, id
and timeline. -/
def claimedStreamFields : List String :=
  ["close", "closeRead", "closeWrite", "reset", "abort", "source", "sink", "id", "timeline"]

/-- The timeline field names the claim (spec section 6) says exist:
opened and, optionally, closed. -/
def claimedTimelineFields : List String :=
  ["opened", "closed"]

/-- The two ways the compliance suite could consume a stream source:
invoking it as a zero-argument function first, or iterating the property
value directly. -/
inductive SourceConsumption where
  | invokedAsFunction
  | iteratedDirectly
  deriving DecidableEq

/-- How close-test.ts consumes stream.source: line 175 passes
stream.source itself to all(), and line 188 awaits stream.source.next()
under a ts-expect-error marker that acknowledges next is part of the
iterable protocol, not of the declared function type. The property value
is used directly as an async iterator and is never invoked. -/
def closeTestSourceUsage : SourceConsumption := .iteratedDirectly

/-- A Session holding two fresh streams, used to instantiate the
isolation theorem at concrete identifiers. -/
def twoStreams : Session :=
  deliverFrames freshSession [openFrame 0, openFrame 1]

theorem sessionWith_eq (sid : Nat) :
    sessionWith sid = ⟨[⟨sid, false, false, false, []⟩], 0, false, []⟩ := rfl

theorem deliverFrames_append (s : Session) (l1 l2 : List Frame) :
    deliverFrames s (l1 ++ l2) = deliverFrames (deliverFrames s l1) l2 := by
  simp [deliverFrames, List.foldl_append]

theorem handleFrame_data_single (sid : Nat) (rc wc re : Bool) (q : List Chunk)
    (n : Nat) (cl : Bool) (e : List Nat) (c : Chunk) :
    Session.handleFrame ⟨[⟨sid, rc, wc, re, q⟩], n, cl, e⟩ ⟨sid, .data, c⟩
      = ⟨[⟨sid, rc, wc, re, q ++ [c]⟩], n, cl, e⟩ := by
  simp [Session.handleFrame, findStream, updateStream, List.find?]

theorem deliverData_single (sid : Nat) (rc wc re : Bool) (n : Nat) (cl : Bool)
    (e : List Nat) (cs : List Chunk) :
    ∀ q : List Chunk,
      deliverFrames ⟨[⟨sid, rc, wc, re, q⟩], n, cl, e⟩ (dataFrames sid cs)
        = ⟨[⟨sid, rc, wc, re, q ++ cs⟩], n, cl, e⟩ := by
  induction cs with
  | nil => intro q; simp [deliverFrames, dataFrames]
  | cons c cs ih =>
    intro q
    have hstep := handleFrame_data_single sid rc wc re q n cl e c
    calc deliverFrames ⟨[⟨sid, rc, wc, re, q⟩], n, cl, e⟩ (dataFrames sid (c :: cs))
        = deliverFrames ⟨[⟨sid, rc, wc, re, q ++ [c]⟩], n, cl, e⟩ (dataFrames sid cs) := by
          simp [dataFrames, deliverFrames] at hstep ⊢
          rw [hstep]
      _ = ⟨[⟨sid, rc, wc, re, (q ++ [c]) ++ cs⟩], n, cl, e⟩ := ih (q ++ [c])
      _ = ⟨[⟨sid, rc, wc, re, q ++ c :: cs⟩], n, cl, e⟩ := by
          simp

theorem handleFrame_closeWrite_single (sid : Nat) (rc wc re : Bool) (q : List Chunk)
    (n : Nat) (cl : Bool) (e : List Nat) :
    Session.handleFrame ⟨[⟨sid, rc, wc, re, q⟩], n, cl, e⟩ (closeWriteFrame sid)
      = ⟨[⟨sid, rc, wc, true, q⟩], n, cl, e⟩ := by
  simp [Session.handleFrame, closeWriteFrame, updateStream]

theorem handleFrame_closeRead_single (sid : Nat) (wc re : Bool) (q : List Chunk)
    (n : Nat) (cl : Bool) (e : List Nat) :
    Session.handleFrame ⟨[⟨sid, false, wc, re, q⟩], n, cl, e⟩ (closeReadFrame sid)
      = ⟨[⟨sid, false, true, re, q⟩], n, cl, e⟩ := by
  simp [Session.handleFrame, closeReadFrame, updateStream, finalizeIfClosed,
        findStream, List.find?]

theorem handleFrame_reset_single (sid : Nat) (rc wc re : Bool) (q : List Chunk)
    (n : Nat) (cl : Bool) (e : List Nat) :
    Session.handleFrame ⟨[⟨sid, rc, wc, re, q⟩], n, cl, e⟩ (resetFrame sid)
      = ⟨[], n, cl, e ++ [sid]⟩ := by
  simp [Session.handleFrame, resetFrame, findStream, List.find?, removeStream,
        List.filter]

theorem readAll_chunk_step (s s2 : Session) (sid : Nat) (c : Chunk) (m : Nat)
    (h : s.sourceNext sid = (.chunk c, s2)) :
    readAll s sid (m + 1) = (c :: (readAll s2 sid m).1, (readAll s2 sid m).2) := by
  simp [readAll, h]

theorem readAll_drained (sid : Nat) (wc : Bool) (n : Nat) (cl : Bool) (e : List Nat)
    (cs : List Chunk) :
    readAll ⟨[⟨sid, false, wc, true, cs⟩], n, cl, e⟩ sid (cs.length + 1) = (cs, .done) := by
  induction cs with
  | nil => simp [readAll, Session.sourceNext, findStream, List.find?]
  | cons c cs ih =>
    have hsrc : Session.sourceNext ⟨[⟨sid, false, wc, true, c :: cs⟩], n, cl, e⟩ sid
        = (.chunk c, ⟨[⟨sid, false, wc, true, cs⟩], n, cl, e⟩) := by
      simp [Session.sourceNext, findStream, List.find?, updateStream]
    have hstep := readAll_chunk_step _ _ sid c (cs.length + 1) hsrc
    simp only [List.length_cons]
    rw [hstep, ih]

theorem readAll_still_open (sid : Nat) (wc : Bool) (n : Nat) (cl : Bool) (e : List Nat)
    (m : Nat) :
    ∀ cs : List Chunk,
      readAll ⟨[⟨sid, false, wc, false, cs⟩], n, cl, e⟩ sid m = (cs.take m, .pending) := by
  induction m with
  | zero => intro cs; simp [readAll]
  | succ m ih =>
    intro cs
    cases cs with
    | nil => simp [readAll, Session.sourceNext, findStream, List.find?]
    | cons c cs =>
      have hsrc : Session.sourceNext ⟨[⟨sid, false, wc, false, c :: cs⟩], n, cl, e⟩ sid
          = (.chunk c, ⟨[⟨sid, false, wc, false, cs⟩], n, cl, e⟩) := by
        simp [Session.sourceNext, findStream, List.find?, updateStream]
      rw [readAll_chunk_step _ _ sid c m hsrc, ih cs]
      simp

theorem readAll_no_streams (sid : Nat) (n : Nat) (cl : Bool) (e : List Nat) (m : Nat) :
    readAll ⟨[], n, cl, e⟩ sid (m + 1) = ([], .done) := by
  simp [readAll, Session.sourceNext, findStream, List.find?]

theorem find?_map_ne (l : List LogicalStream) (a b : Nat)
    (f : LogicalStream → LogicalStream) (hid : ∀ st, (f st).id = st.id) (h : a ≠ b) :
    (l.map (fun st => if st.id == a then f st else st)).find? (fun st => st.id == b)
      = l.find? (fun st => st.id == b) := by
  rw [List.find?_map]
  have hpred : ((fun st => st.id == b) ∘ fun st => if st.id == a then f st else st)
      = (fun st : LogicalStream => st.id == b) := by
    funext st
    simp only [Function.comp]
    by_cases ha : st.id = a <;> simp [ha, hid st]
  rw [hpred]
  cases hf : l.find? (fun st => st.id == b) with
  | none => rfl
  | some e =>
    have hpe := List.find?_some hf
    have heb : e.id = b := by simpa using hpe
    have hne : e.id ≠ a := by
      intro hh
      apply h
      rw [← hh, heb]
    simp [hne]

theorem find?_filter_ne (l : List LogicalStream) (a b : Nat) (h : a ≠ b) :
    (l.filter (fun st => st.id != a)).find? (fun st => st.id == b)
      = l.find? (fun st => st.id == b) := by
  rw [List.find?_filter]
  have hpred : ∀ st : LogicalStream,
      (decide ((st.id != a) = true ∧ (st.id == b) = true)) = (st.id == b) := by
    intro st
    by_cases hb : st.id = b
    · have hba : (b != a) = true := by
        simp
        exact fun hh => h hh.symm
      simp [hb, hba]
    · simp [hb]
  simp only [hpred]

theorem findStream_update_ne (s : Session) (a b : Nat)
    (f : LogicalStream → LogicalStream) (hid : ∀ st, (f st).id = st.id) (h : a ≠ b) :
    findStream (updateStream s a f) b = findStream s b :=
  find?_map_ne s.streams a b f hid h

theorem findStream_remove_ne (s : Session) (a b : Nat) (h : a ≠ b) :
    findStream (removeStream s a) b = findStream s b :=
  find?_filter_ne s.streams a b h

theorem findStream_finalize_ne (s : Session) (a b : Nat) (h : a ≠ b) :
    findStream (finalizeIfClosed s a) b = findStream s b := by
  unfold finalizeIfClosed
  cases findStream s a with
  | none => rfl
  | some st =>
    by_cases hc : st.readClosed && st.writeClosed
    · simpa [hc] using findStream_remove_ne s a b h
    · simp [hc]

theorem sourceNext_fst_congr (s s' : Session) (sid : Nat)
    (h : findStream s sid = findStream s' sid) :
    (s.sourceNext sid).1 = (s'.sourceNext sid).1 := by
  unfold Session.sourceNext
  rw [h]
  cases findStream s' sid with
  | none => rfl
  | some st =>
    by_cases hrc : st.readClosed
    · simp [hrc]
    · cases hq : st.inbound with
      | nil => by_cases hre : st.remoteEnded <;> simp [hrc, hq, hre]
      | cons c cs => simp [hrc, hq]

theorem openN_eq (n : Nat) :
    openN n = ⟨(List.range n).map (fun i => { id := i }), n, false, []⟩ := by
  induction n with
  | zero => rfl
  | succ n ih =>
    simp [openN, newStreamD, Session.newStream, ih, List.range_succ]

theorem deliver_then_close_eq (sid : Nat) (cs : List Chunk) :
    deliverFrames (sessionWith sid) (dataFrames sid cs ++ [closeWriteFrame sid])
      = ⟨[⟨sid, false, false, true, cs⟩], 0, false, []⟩ := by
  have hdeliv : deliverFrames (sessionWith sid) (dataFrames sid cs)
      = ⟨[⟨sid, false, false, false, cs⟩], 0, false, []⟩ := by
    simpa [sessionWith_eq] using deliverData_single sid false false false 0 false [] cs []
  rw [deliverFrames_append, hdeliv]
  simpa [deliverFrames] using handleFrame_closeWrite_single sid false false false cs 0 false []

theorem deliver_take_eq (sid : Nat) (cs : List Chunk) (k : Nat) :
    deliverFrames (sessionWith sid) ((dataFrames sid cs).take k)
      = ⟨[⟨sid, false, false, false, cs.take k⟩], 0, false, []⟩ := by
  have h1 : (dataFrames sid cs).take k = dataFrames sid (cs.take k) := by
    simp [dataFrames, List.map_take]
  rw [h1]
  simpa [sessionWith_eq] using deliverData_single sid false false false 0 false [] (cs.take k) []

theorem sink_then_close_delivered (sid : Nat) (cs : List Chunk) :
    readAll (deliverFrames (sessionWith sid) (dataFrames sid cs ++ [closeWriteFrame sid]))
      sid (cs.length + 1) = (cs, .done) := by
  rw [deliver_then_close_eq]
  exact readAll_drained sid false 0 false [] cs

/-- C1: round-trip: every finite sequence of byte chunks written to a
stream sink arrives at the peer source as the identical chunks, hence
the identical bytes, in the identical order, ending in a clean end of
stream; when only the first k data frames arrive before the transfer is
cut, the peer yields exactly the corresponding prefix of the chunks,
uncorrupted and unreordered, and a reset arriving at that point makes
every later read report a clean end of stream instead of corrupt
data. -/
theorem streamRoundTrip (sid : Nat) (cs : List Chunk) (k m : Nat) :
    readAll (deliverFrames (sessionWith sid) (dataFrames sid cs ++ [closeWriteFrame sid]))
        sid (cs.length + 1) = (cs, .done)
    ∧ (readAll (deliverFrames (sessionWith sid) (dataFrames sid cs ++ [closeWriteFrame sid]))
        sid (cs.length + 1)).1.flatten = cs.flatten
    ∧ readAll (deliverFrames (sessionWith sid) ((dataFrames sid cs).take k)) sid m
        = (cs.take (min m k), .pending)
    ∧ readAll (deliverFrames (sessionWith sid) ((dataFrames sid cs).take k ++ [resetFrame sid]))
        sid (m + 1) = ([], .done) := by
  refine ⟨sink_then_close_delivered sid cs, ?_, ?_, ?_⟩
  · rw [sink_then_close_delivered sid cs]
  · rw [deliver_take_eq, readAll_still_open sid false 0 false [] m (cs.take k), List.take_take]
  · rw [deliverFrames_append, deliver_take_eq]
    have hreset := handleFrame_reset_single sid false false false (cs.take k) 0 false []
    simp only [deliverFrames, List.foldl_cons, List.foldl_nil]
    rw [hreset]
    exact readAll_no_streams sid 0 false ([] ++ [sid]) m

/-- C2: opening N streams on a Session and then closing the underlying
transport empties the streams collection (length exactly 0) and fires
onStreamEnd exactly N times, exactly once per opened stream. -/
theorem transportCloseEndsAllStreams (N : Nat) :
    ((openN N).closeTransport).streams.length = 0
    ∧ ((openN N).closeTransport).endLog.length = N
    ∧ ∀ sid, sid < N → ((openN N).closeTransport).endLog.count sid = 1 := by
  have hend : ((openN N).closeTransport).endLog = List.range N := by
    have hcomp : ((fun st : LogicalStream => st.id) ∘ fun i : Nat => ({ id := i } : LogicalStream))
        = fun i : Nat => i := rfl
    simp [openN_eq, Session.closeTransport, List.map_map, hcomp]
  refine ⟨rfl, ?_, ?_⟩
  · rw [hend, List.length_range]
  · intro sid hsid
    rw [hend]
    exact List.count_eq_one_of_mem (List.nodup_range N) (List.mem_range.mpr hsid)

theorem transportCloseEndsAllStreams_witness :
    ((openN 3).closeTransport).streams.length = 0
    ∧ ((openN 3).closeTransport).endLog.length = 3
    ∧ ((openN 3).closeTransport).endLog.count 1 = 1 :=
  ⟨(transportCloseEndsAllStreams 3).1, (transportCloseEndsAllStreams 3).2.1,
   (transportCloseEndsAllStreams 3).2.2 1 (by decide)⟩

/-- C3: after closeWrite completes on a stream, every subsequent sink
call on it fails with the streamClosedForWriting error, whose message is
the text stream closed for writing, while the chunks sunk before the
closeWrite are still delivered to the peer in full, followed by a clean
end of stream. -/
theorem closeWriteThenSinkFails (sid : Nat) (cs ds : List Chunk) :
    ((sessionWith sid).closeWrite sid).1.sink sid ds = .error .streamClosedForWriting
    ∧ MuxError.message .streamClosedForWriting = "stream closed for writing"
    ∧ readAll (deliverFrames (sessionWith sid) (dataFrames sid cs ++ [closeWriteFrame sid]))
        sid (cs.length + 1) = (cs, .done) := by
  refine ⟨?_, rfl, sink_then_close_delivered sid cs⟩
  have hclose : ((sessionWith sid).closeWrite sid).1
      = ⟨[⟨sid, false, true, false, []⟩], 0, false, []⟩ := by
    simp [Session.closeWrite, sessionWith, freshSession, Session.handleFrame, openFrame,
          updateStream, finalizeIfClosed, findStream, removeStream, List.find?]
  rw [hclose]
  simp [Session.sink, findStream, List.find?]

/-- C4: after closeRead completes on a stream, the very next read from
its source reports a clean end of stream (done); the stream remains
writable (sink still succeeds and emits the data frames), and every
chunk sunk after the closeRead is still received in full by the peer
source. -/
theorem closeReadThenStillWritable (sid : Nat) (cs : List Chunk) :
    (((sessionWith sid).closeRead sid).1.sourceNext sid).1 = .done
    ∧ ((sessionWith sid).closeRead sid).1.sink sid cs
        = .ok (((sessionWith sid).closeRead sid).1, dataFrames sid cs)
    ∧ readAll (deliverFrames (sessionWith sid)
        (closeReadFrame sid :: (dataFrames sid cs ++ [closeWriteFrame sid])))
        sid (cs.length + 1) = (cs, .done) := by
  have hclose : ((sessionWith sid).closeRead sid).1
      = ⟨[⟨sid, true, false, false, []⟩], 0, false, []⟩ := by
    simp [Session.closeRead, sessionWith, freshSession, Session.handleFrame, openFrame,
          updateStream, finalizeIfClosed, findStream, removeStream, List.find?]
  refine ⟨?_, ?_, ?_⟩
  · rw [hclose]
    simp [Session.sourceNext, findStream, List.find?]
  · rw [hclose]
    simp [Session.sink, findStream, List.find?]
  · have h0 : Session.handleFrame (sessionWith sid) (closeReadFrame sid)
        = ⟨[⟨sid, false, true, false, []⟩], 0, false, []⟩ := by
      simpa [sessionWith_eq] using handleFrame_closeRead_single sid false false [] 0 false []
    have hstep : deliverFrames (sessionWith sid)
        (closeReadFrame sid :: (dataFrames sid cs ++ [closeWriteFrame sid]))
        = deliverFrames ⟨[⟨sid, false, true, false, []⟩], 0, false, []⟩
            (dataFrames sid cs ++ [closeWriteFrame sid]) := by
      simp [deliverFrames, h0]
    have hdata := deliverData_single sid false true false 0 false [] cs []
    have hcw := handleFrame_closeWrite_single sid false true false cs 0 false []
    rw [hstep, deliverFrames_append, hdata]
    simp only [deliverFrames, List.foldl_cons, List.foldl_nil, List.nil_append]
    rw [hcw]
    exact readAll_drained sid true 0 false [] cs

/-- C5: onStreamEnd fires exactly once per Logical Stream, at the
transition to fully closed or reset, even for a stream never written to
or read from: a fresh stream closed with close fires once; after only
closeWrite nothing has fired yet; closeWrite then closeRead (and the
other order) fire exactly once in total; repeating close or reset on an
already terminal stream never fires a second time. -/
theorem onStreamEndFiresOnce :
    ((newStreamD freshSession).closeStream 0).1.endLog.count 0 = 1
    ∧ ((newStreamD freshSession).closeWrite 0).1.endLog.count 0 = 0
    ∧ (((newStreamD freshSession).closeWrite 0).1.closeRead 0).1.endLog.count 0 = 1
    ∧ (((newStreamD freshSession).closeRead 0).1.closeWrite 0).1.endLog.count 0 = 1
    ∧ (((newStreamD freshSession).closeStream 0).1.closeStream 0).1.endLog.count 0 = 1
    ∧ (((newStreamD freshSession).resetStream 0).1.resetStream 0).1.endLog.count 0 = 1 := by
  decide

/-- C6: closing or resetting one stream leaves every other stream of the
Session untouched: the registry entry of any other stream (its open
state, flags and buffered data) is unchanged, and so is the result its
source would yield next. -/
theorem closeStreamIsolation (s : Session) (a b : Nat) (h : a ≠ b) :
    findStream (s.closeStream a).1 b = findStream s b
    ∧ findStream (s.resetStream a).1 b = findStream s b
    ∧ ((s.closeStream a).1.sourceNext b).1 = (s.sourceNext b).1
    ∧ ((s.resetStream a).1.sourceNext b).1 = (s.sourceNext b).1 := by
  have h1 : findStream (s.closeStream a).1 b = findStream s b := by
    calc findStream (s.closeStream a).1 b
        = findStream (finalizeIfClosed
            (updateStream s a fun st => { st with readClosed := true, writeClosed := true }) a) b :=
          rfl
      _ = findStream
            (updateStream s a fun st => { st with readClosed := true, writeClosed := true }) b :=
          findStream_finalize_ne _ a b h
      _ = findStream s b := findStream_update_ne s a b _ (fun st => rfl) h
  have h2 : findStream (s.resetStream a).1 b = findStream s b := by
    unfold Session.resetStream
    cases hfa : findStream s a with
    | none => rfl
    | some st =>
      simp only
      exact findStream_remove_ne s a b h
  exact ⟨h1, h2, sourceNext_fst_congr _ _ b h1, sourceNext_fst_congr _ _ b h2⟩

theorem closeStreamIsolation_witness :
    findStream (twoStreams.closeStream 0).1 1 = findStream twoStreams 1
    ∧ findStream (twoStreams.resetStream 0).1 1 = findStream twoStreams 1
    ∧ ((twoStreams.closeStream 0).1.sourceNext 1).1 = (twoStreams.sourceNext 1).1
    ∧ ((twoStreams.resetStream 0).1.sourceNext 1).1 = (twoStreams.sourceNext 1).1 :=
  closeStreamIsolation twoStreams 0 1 (by decide)

/-- C7: cancelling or aborting the whole Session force-resets every
still-open stream: the registry empties with one onStreamEnd per stream
that was still registered, and every pending operation resolves instead
of hanging: a read on any stream reports a clean end of stream (done,
never pending), and a write on any stream fails with the streamReset
error. -/
theorem sessionAbortResolvesAll (s : Session) (sid : Nat) (cs : List Chunk) (m : Nat) :
    s.closeTransport.streams = []
    ∧ s.closeTransport.endLog = s.endLog ++ s.streams.map (fun st => st.id)
    ∧ (s.closeTransport.sourceNext sid).1 = .done
    ∧ readAll s.closeTransport sid (m + 1) = ([], .done)
    ∧ s.closeTransport.sink sid cs = .error .streamReset := by
  refine ⟨rfl, rfl, ?_, ?_, ?_⟩
  · simp [Session.sourceNext, Session.closeTransport, findStream, List.find?]
  · exact readAll_no_streams sid s.nextId true (s.endLog ++ s.streams.map fun st => st.id) m
  · simp [Session.sink, Session.closeTransport, findStream, List.find?]

/-- C8 as written is false on the declared types: the MuxedStream record
of src/unnamed/part_000 declares neither closeRead nor closeWrite, and
the MuxedTimeline fields are named open and close, not opened and
closed. -/
theorem muxedStreamSurfaceClaim_false :
    ¬((∀ f ∈ claimedStreamFields, f ∈ fieldNames MuxedStreamTy)
      ∧ ∀ f ∈ claimedTimelineFields, f ∈ fieldNames MuxedTimelineTy) := by
  decide

/-- C8 amended: the declared MuxedStream record exposes exactly close,
abort, reset, sink, source, timeline and id (all required), with the
timeline record carrying a required field named open and an optional
field named close; closeRead and closeWrite are absent from the declared
record even though the compliance tests invoke them. -/
theorem muxedStreamSurface :
    fieldNames MuxedStreamTy = ["close", "abort", "reset", "sink", "source", "timeline", "id"]
    ∧ fieldNames MuxedTimelineTy = ["open", "close"]
    ∧ optionalFields MuxedTimelineTy = ["close"]
    ∧ optionalFields MuxedStreamTy = []
    ∧ "closeRead" ∉ fieldNames MuxedStreamTy
    ∧ "closeWrite" ∉ fieldNames MuxedStreamTy := by
  decide

/-- C9: newStream on a Session that is already closed fails with the
sessionClosed error; on a Session not yet closed it succeeds and
returns the freshly allocated identifier, with the new stream appended
to the registry. -/
theorem newStreamAfterTeardownFails (s : Session) :
    (s.closed = true → s.newStream = .error .sessionClosed)
    ∧ (s.closed = false →
        s.newStream = .ok ({ s with streams := s.streams ++ [{ id := s.nextId }],
                                    nextId := s.nextId + 1 }, s.nextId)
        ∧ ({ id := s.nextId } : LogicalStream) ∈
            ({ s with streams := s.streams ++ [{ id := s.nextId }],
                      nextId := s.nextId + 1 } : Session).streams) := by
  constructor
  · intro h
    simp [Session.newStream, h]
  · intro h
    refine ⟨by simp [Session.newStream, h], ?_⟩
    simp

theorem newStreamAfterTeardownFails_witness :
    (({ closed := true } : Session).newStream = .error .sessionClosed)
    ∧ freshSession.newStream
        = .ok ({ freshSession with streams := freshSession.streams ++ [{ id := freshSession.nextId }],
                                   nextId := freshSession.nextId + 1 }, freshSession.nextId) :=
  ⟨(newStreamAfterTeardownFails { closed := true }).1 rfl,
   ((newStreamAfterTeardownFails freshSession).2 rfl).1⟩

/-- C10: the compliance suite consumes the source property of a stream
directly as an async iterator (passing it to all and awaiting its next),
never invoking it first, even though the declared type of the source
field in src/unnamed/part_000 is a zero-argument function returning an
AsyncIterable of Uint8Array, which is a different type shape from the
async iterable itself. -/
theorem sourceConsumedWithoutInvocation :
    closeTestSourceUsage = SourceConsumption.iteratedDirectly
    ∧ fieldTy MuxedStreamTy "source" = some (TsTy.func0 (TsTy.asyncIterable TsTy.uint8Array))
    ∧ TsTy.func0 (TsTy.asyncIterable TsTy.uint8Array) ≠ TsTy.asyncIterable TsTy.uint8Array :=
  ⟨rfl, rfl, fun h => TsTy.noConfusion h⟩

end StreamMuxer
